import Mathlib

set_option maxRecDepth 40000

/-!
Verification development for the Complementary Product Recommendation
repository (embedding_utils.py, llm_service.py, search_mongodb.py).

Modelling conventions:
* Python floats are modelled as rationals (ℚ); no claim here depends on
  floating-point rounding.
* Remote effects (the sentence-transformer model, the generative model and
  the MongoDB store) are modelled as oracle parameters: an `encode`
  function standing for `embedding_model.encode`, an `LlmReply` standing
  for the outcome of `recommendation_chain.invoke`, and a `store` function
  standing for `collection.aggregate` on the pipeline the code builds.
  An exception raised by a remote call is a dedicated constructor of the
  oracle's result type, since the Python code catches it.
* Python `None` results become `Option.none`; functions that print and
  return `None` on several distinct conditions are given an explicit
  outcome type so that the branch taken is observable.
-/

namespace CompRec

/-! ## Embedding Generator — src/embedding_utils.py -/

/-- Constant `VECTOR_DIMENSION = 384` from embedding_utils.py. -/
def VECTOR_DIMENSION : Nat := 384

/-- Result of `embedding_model.encode(text, convert_to_numpy=True)`:
an exception (`raised`), a 1-D numpy array (`arr1`), a 2-D array given as
its rows (`arr2`), or an array of any other rank (`arrOther`). -/
inductive EncodeResult where
  | raised
  | arr1 (v : List ℚ)
  | arr2 (rows : List (List ℚ))
  | arrOther

/-- The rank/shape dispatch of get_embedding (embedding_utils.py lines
23-28): a 2-D output with first dimension 1 yields its single row, a 1-D
output yields itself, anything else yields `None`. -/
def extractEmbedding : EncodeResult → Option (List ℚ)
  | .raised => none
  | .arr2 rows => if rows.length = 1 then rows.head? else none
  | .arr1 v => some v
  | .arrOther => none

/-- `get_embedding(text_to_embed)` from embedding_utils.py.
`text` is `none` for Python `None`; `modelAvailable` is whether the
module-level `SentenceTransformer` constructor succeeded; `encode` is the
model oracle.  Mirrors the source: empty/None text → None; model
unavailable → None; then the shape dispatch; then the length check
against `VECTOR_DIMENSION`; every exception inside the try is caught and
becomes None (the `raised` case of the oracle). -/
def get_embedding (text : Option String) (modelAvailable : Bool)
    (encode : String → EncodeResult) : Option (List ℚ) :=
  match text with
  | none => none
  | some t =>
    if t.isEmpty then none
    else if !modelAvailable then none
    else
      match extractEmbedding (encode t) with
      | none => none
      | some l => if l.length ≠ VECTOR_DIMENSION then none else some l

/-! ## Vector Store Client — find_similar_products_mongodb in
src/search_mongodb.py -/

/-- One document produced by the `$project` stage: `_id`, `product_name`
and the `vectorSearchScore` meta field. -/
structure SearchHit where
  oid : String
  product_name : String
  score : ℚ
  deriving DecidableEq, Repr

/-- The `$vectorSearch` stage the code builds (search_mongodb.py lines
58-67): the query vector, `numCandidates` and `limit` (the index name and
embedding path come from the environment and are fixed per process, so
they are not modelled). -/
structure SearchPipeline where
  queryVector : List ℚ
  numCandidates : Int
  limit : Int
  deriving DecidableEq

/-- Outcome of the MongoDB round trip: `ConnectionFailure` on
connect/ping, any other exception during aggregation, or the list of
documents the aggregation returned. -/
inductive StoreReply where
  | connFail
  | queryRaise
  | docs (hits : List SearchHit)

/-- Which `return` statement of `find_similar_products_mongodb` runs.
The first three constructors are the pre-network early returns (missing
connection string, embedding failure, dimension check); the last three
require the MongoDB round trip. -/
inductive SearchOutcome where
  | noConnString
  | embedFailed
  | dimMismatch (n : Nat)
  | connFailure
  | queryError
  | ok (hits : List SearchHit)
  deriving DecidableEq, Repr

/-- Maps the store round-trip outcome to the function's outcome: caught
`ConnectionFailure` → return None, caught generic exception → return
None, aggregation result → returned verbatim. -/
def replyToOutcome : StoreReply → SearchOutcome
  | .connFail => .connFailure
  | .queryRaise => .queryError
  | .docs hits => .ok hits

/-- `find_similar_products_mongodb(query_text, top_k)` from
search_mongodb.py.  Checks the connection string, computes
`get_embedding(query_text)`, checks its dimension, then issues the
aggregation pipeline with `numCandidates = max(top_k * 10, 50)` and
`limit = top_k`, returning the store's documents verbatim.  There is no
validation of `top_k` anywhere in the source. -/
def find_similar_products_mongodb
    (connStringPresent : Bool) (modelAvailable : Bool)
    (encode : String → EncodeResult)
    (store : SearchPipeline → StoreReply)
    (query_text : String) (top_k : Int) : SearchOutcome :=
  if !connStringPresent then .noConnString
  else
    match get_embedding (some query_text) modelAvailable encode with
    | none => .embedFailed
    | some qe =>
      if qe.length ≠ VECTOR_DIMENSION then .dimMismatch qe.length
      else
        replyToOutcome (store ⟨qe, max (top_k * 10) 50, top_k⟩)

/-- The value the Python function actually returns: the document list on
success, `None` on every failure path. -/
def outcomeToOption : SearchOutcome → Option (List SearchHit)
  | .ok hits => some hits
  | _ => none

/-- True exactly when the outcome is one that can only arise after the
code has opened a MongoDB connection and issued the query. -/
def reachesStore : SearchOutcome → Bool
  | .connFailure => true
  | .queryError => true
  | .ok _ => true
  | _ => false

/-- True exactly on the dimension-mismatch early return. -/
def isDimMismatch : SearchOutcome → Bool
  | .dimMismatch _ => true
  | _ => false

/-! ## Candidate Generator — src/llm_service.py -/

/-- The pydantic model `ProductRelationship`. -/
structure ProductRelationship where
  product_name : String
  product_description : String
  score : ℚ
  deriving DecidableEq, Repr

/-- The pydantic model `ProductRecommendations`. -/
structure ProductRecommendations where
  complementary_products : List ProductRelationship
  deriving DecidableEq, Repr

/-- A JSON value, the raw generative-model output handed to the
`PydanticOutputParser`. -/
inductive JsonVal where
  | jstr (s : String)
  | jnum (q : ℚ)
  | jarr (xs : List JsonVal)
  | jobj (fields : List (String × JsonVal))
  | jother

/-- Reads a JSON string, failing on any other value. -/
def jsonStr? : JsonVal → Option String
  | .jstr s => some s
  | _ => none

/-- Reads a JSON number, failing on any other value. -/
def jsonNum? : JsonVal → Option ℚ
  | .jnum q => some q
  | _ => none

/-- The range constraint `score: float = Field(ge=0.0, le=1.0)`: builds
the validated record only when the score lies in `[0, 1]`. -/
def mkValidated (n d : String) (s : ℚ) : Option ProductRelationship :=
  if 0 ≤ s ∧ s ≤ 1 then some ⟨n, d, s⟩ else none

/-- Validation of one item against the `ProductRelationship` schema:
the three fields must be present with the right types and `score` must
satisfy `ge=0.0, le=1.0`.  (Pydantic's lax numeric coercions are elided;
they do not affect any claim here.) -/
def validateItem (j : JsonVal) : Option ProductRelationship :=
  match j with
  | .jobj fields =>
    ((fields.lookup "product_name").bind jsonStr?).bind fun n =>
      ((fields.lookup "product_description").bind jsonStr?).bind fun d =>
        ((fields.lookup "score").bind jsonNum?).bind fun s =>
          mkValidated n d s
  | _ => none

/-- All-or-nothing validation of the item list: pydantic rejects the
whole response if any element fails. -/
def validateItems (items : List JsonVal) : Option (List ProductRelationship) :=
  items.mapM validateItem

/-- Validation of the full response against `ProductRecommendations`: an
object whose `complementary_products` field is an array of valid items.
Note the schema puts NO bound on the length of the array. -/
def validateResponse (j : JsonVal) : Option ProductRecommendations :=
  match j with
  | .jobj fields =>
    match fields.lookup "complementary_products" with
    | some (.jarr items) => (validateItems items).map ProductRecommendations.mk
    | _ => none
  | _ => none

/-- Outcome of the generative-model call itself: an exception, or a raw
response to be parsed. -/
inductive LlmReply where
  | raiseErr
  | output (j : JsonVal)

/-- `recommendation_chain.invoke(...)` = prompt | llm | parser: `none`
when the model call raises or the parser rejects the response, `some r`
on a schema-valid parse. -/
def chainInvoke (reply : LlmReply) : Option ProductRecommendations :=
  match reply with
  | .raiseErr => none
  | .output j => validateResponse j

/-- The post-processing step of get_complementary (llm_service.py lines
136-140): `sorted(complementary_list, key=lambda x: x.score,
reverse=True)`, a stable descending sort on `score`. -/
def sortByScoreDesc (l : List ProductRelationship) : List ProductRelationship :=
  l.mergeSort (fun a b => decide (b.score ≤ a.score))

/-- `get_complementary(product_name, category, llm)` from llm_service.py.
The product name and taxonomy only shape the prompt, so they do not
appear in the model.  `llmProvided` is whether `llm` is non-None.  Any
exception during invocation or parsing is caught and the function
returns an empty recommendation dict. -/
def get_complementary (llmProvided : Bool) (reply : LlmReply) :
    ProductRecommendations :=
  if !llmProvided then ⟨[]⟩
  else
    match chainInvoke reply with
    | none => ⟨[]⟩
    | some r => ⟨sortByScoreDesc r.complementary_products⟩

/-! ## Hybrid Recommender — the `__main__` block of src/search_mongodb.py -/

/-- One entry of `recommended_products`. -/
structure RecommendedProduct where
  product_id : String
  product_name : String
  score : ℚ
  deriving DecidableEq, Repr

/-- The composite query text the orchestrator builds for a candidate:
`f"{com_product_name} {com_product_description}"` (search_mongodb.py
line 121) — the candidate's own name, a single space, and the
candidate's description. -/
def candidateQueryText (item : ProductRelationship) : String :=
  item.product_name ++ " " ++ item.product_description

/-- The dict appended to `recommended_products` for one search hit. -/
def hitToRec (h : SearchHit) : RecommendedProduct :=
  ⟨h.oid, h.product_name, h.score⟩

/-- The per-candidate grounding loop of the `__main__` block
(search_mongodb.py lines 118-148): for each candidate in order, search
with the composite query text; a falsy result (`None` from a failed
search, or an empty hit list) is skipped, a non-empty hit list is
appended to the accumulator. -/
def groundCandidates (search : String → Option (List SearchHit))
    (candidates : List ProductRelationship) : List RecommendedProduct :=
  candidates.foldl
    (fun acc item =>
      match search (candidateQueryText item) with
      | none => acc
      | some [] => acc
      | some hits => acc ++ hits.map hitToRec)
    []

/-- The grounding of a single candidate, used to state order
preservation: the block of output entries it contributes. -/
def groundOne (search : String → Option (List SearchHit))
    (item : ProductRelationship) : List RecommendedProduct :=
  match search (candidateQueryText item) with
  | none => []
  | some hits => hits.map hitToRec

/-- The whole `__main__` pipeline: call get_complementary (with a
non-None llm), then ground every candidate through
`find_similar_products_mongodb(product_text, top_k=1)`. -/
def recommend_main
    (connStringPresent modelAvailable : Bool)
    (encode : String → EncodeResult)
    (store : SearchPipeline → StoreReply)
    (reply : LlmReply) : List RecommendedProduct :=
  groundCandidates
    (fun text => outcomeToOption
      (find_similar_products_mongodb connStringPresent modelAvailable
        encode store text 1))
    (get_complementary true reply).complementary_products

/-! ## Concrete instances used in closed statements -/

/-- An encode oracle that always returns a 1-D vector of 384 zeros. -/
def encodeOk : String → EncodeResult := fun _ => .arr1 (List.replicate 384 0)

/-- The 384-zero vector `encodeOk` produces. -/
def vecOk : List ℚ := List.replicate 384 0

/-- A store that always returns an empty document list. -/
def storeEmptyDocs : SearchPipeline → StoreReply := fun _ => .docs []

/-- A store that raises during aggregation whenever the pipeline's
`limit` is non-positive (as MongoDB itself would) and otherwise returns
no documents.  Its reply distinguishes whether the query reached it. -/
def storeLimitZeroRaises : SearchPipeline → StoreReply :=
  fun p => if p.limit ≤ 0 then .queryRaise else .docs []

/-- A concrete candidate as the generator would produce it. -/
def c0 : ProductRelationship :=
  ⟨"Comfort Fit Denim Jeans", "Classic blue jeans with a relaxed fit", mkRat 96 100⟩

/-- A search oracle answering with one hit exactly at the composite text
built from the candidate's own name. -/
def searchAtCandidateText : String → Option (List SearchHit) :=
  fun t =>
    if t = "Comfort Fit Denim Jeans Classic blue jeans with a relaxed fit"
    then some [⟨"cat-17", "Slim Straight Jeans", mkRat 87 100⟩] else some []

/-- A search oracle answering with one hit exactly at the composite text
the claim describes: original product name + space + description. -/
def searchAtOriginalText : String → Option (List SearchHit) :=
  fun t =>
    if t = "Mens Casual Cotton T-Shirt Classic blue jeans with a relaxed fit"
    then some [⟨"cat-17", "Slim Straight Jeans", mkRat 87 100⟩] else some []

/-- Five concrete candidates in generator rank order. -/
def exampleCandidates : List ProductRelationship :=
  [⟨"Comfort Fit Denim Jeans", "Classic blue jeans with a relaxed fit", mkRat 96 100⟩,
   ⟨"White Casual Sneakers", "Lightweight lace-up shoes", mkRat 91 100⟩,
   ⟨"Classic Baseball Cap", "Adjustable cotton cap", mkRat 88 100⟩,
   ⟨"Crew Socks Pack", "Soft cotton ankle socks", mkRat 86 100⟩,
   ⟨"Leather Belt", "Brown leather belt", mkRat 85 100⟩]

/-- A search oracle whose vector search fails (returns None) for exactly
the third candidate's composite text and finds one hit for the rest. -/
def exampleSearchOneFails : String → Option (List SearchHit) :=
  fun t =>
    if t = "Classic Baseball Cap Adjustable cotton cap" then none
    else some [⟨"cat-1", t, mkRat 9 10⟩]

/-- A search oracle that always succeeds with zero matches. -/
def exampleSearchAllEmpty : String → Option (List SearchHit) :=
  fun _ => some []

/-- Builds the JSON object for one schema-conformant item. -/
def mkItemJson (n d : String) (s : ℚ) : JsonVal :=
  .jobj [("product_name", .jstr n), ("product_description", .jstr d),
         ("score", .jnum s)]

/-- Six schema-conformant raw items — one more than the prompt's stated
maximum of five. -/
def sixItems : List JsonVal :=
  [mkItemJson "A" "a" (mkRat 96 100), mkItemJson "B" "b" (mkRat 94 100),
   mkItemJson "C" "c" (mkRat 92 100), mkItemJson "D" "d" (mkRat 90 100),
   mkItemJson "E" "e" (mkRat 88 100), mkItemJson "F" "f" (mkRat 86 100)]

/-- The records `sixItems` validates to. -/
def sixProducts : List ProductRelationship :=
  [⟨"A", "a", mkRat 96 100⟩, ⟨"B", "b", mkRat 94 100⟩, ⟨"C", "c", mkRat 92 100⟩,
   ⟨"D", "d", mkRat 90 100⟩, ⟨"E", "e", mkRat 88 100⟩, ⟨"F", "f", mkRat 86 100⟩]

/-- A raw response whose `complementary_products` array has SIX
schema-conformant items. -/
def sixItemResponse : JsonVal :=
  .jobj [("complementary_products", .jarr sixItems)]

/-! ## Helper lemmas -/

/-- Anatomy of a successful `get_embedding` call: the vector has length
`VECTOR_DIMENSION` and is exactly what the shape dispatch extracted from
the model output — no truncation or padding. -/
theorem get_embedding_some_spec {text : Option String} {avail : Bool}
    {encode : String → EncodeResult} {v : List ℚ}
    (h : get_embedding text avail encode = some v) :
    v.length = VECTOR_DIMENSION ∧
      ∃ t, text = some t ∧ extractEmbedding (encode t) = some v := by
  cases text with
  | none => simp [get_embedding] at h
  | some t =>
    by_cases he : t.isEmpty
    · simp [get_embedding, he] at h
    · cases avail with
      | false => simp [get_embedding, he] at h
      | true =>
        rcases hx : extractEmbedding (encode t) with _ | l
        · simp [get_embedding, he, hx] at h
        · by_cases hl : l.length = VECTOR_DIMENSION
          · simp [get_embedding, he, hx, hl] at h
            subst h
            exact ⟨hl, t, rfl, hx⟩
          · simp [get_embedding, he, hx, hl] at h

/-- The grounding fold, started from any accumulator, appends the
per-candidate blocks in candidate order. -/
theorem groundCandidates_foldl (search : String → Option (List SearchHit))
    (cs : List ProductRelationship) :
    ∀ acc : List RecommendedProduct,
      cs.foldl
        (fun acc item =>
          match search (candidateQueryText item) with
          | none => acc
          | some [] => acc
          | some hits => acc ++ hits.map hitToRec)
        acc
      = acc ++ (cs.map (groundOne search)).flatten := by
  induction cs with
  | nil => intro acc; simp
  | cons c cs ih =>
    intro acc
    rw [List.foldl_cons, ih, List.map_cons, List.flatten_cons, ← List.append_assoc]
    have hstep :
        (match search (candidateQueryText c) with
          | none => acc
          | some [] => acc
          | some hits => acc ++ hits.map hitToRec)
        = acc ++ groundOne search c := by
      unfold groundOne
      cases hx : search (candidateQueryText c) with
      | none => simp
      | some hits => cases hits <;> simp
    rw [hstep]

/-- The grounding loop equals the concatenation of per-candidate blocks. -/
theorem groundCandidates_eq (search : String → Option (List SearchHit))
    (cs : List ProductRelationship) :
    groundCandidates search cs = (cs.map (groundOne search)).flatten := by
  unfold groundCandidates
  rw [groundCandidates_foldl]
  simp

/-- A successful `mkValidated` yields exactly the given record, with the
score inside `[0, 1]`. -/
theorem mkValidated_some {n d : String} {s : ℚ} {p : ProductRelationship}
    (h : mkValidated n d s = some p) :
    p = ⟨n, d, s⟩ ∧ 0 ≤ p.score ∧ p.score ≤ 1 := by
  by_cases hc : 0 ≤ s ∧ s ≤ 1
  · rw [mkValidated, if_pos hc, Option.some_inj] at h
    subst h
    exact ⟨rfl, hc⟩
  · rw [mkValidated, if_neg hc] at h
    exact absurd h (by simp)

/-- A raw item that validates has its score inside `[0, 1]`. -/
theorem validateItem_some {j : JsonVal} {p : ProductRelationship}
    (h : validateItem j = some p) : 0 ≤ p.score ∧ p.score ≤ 1 := by
  cases j with
  | jobj fields =>
    simp only [validateItem, Option.bind_eq_some] at h
    obtain ⟨n, _, d, _, s, _, hm⟩ := h
    exact (mkValidated_some hm).2
  | jstr s => simp [validateItem] at h
  | jnum q => simp [validateItem] at h
  | jarr xs => simp [validateItem] at h
  | jother => simp [validateItem] at h

/-- A successful `validateItems` run validated every raw item, kept them
all (same length), and every resulting score is inside `[0, 1]`. -/
theorem validateItems_some :
    ∀ {items : List JsonVal} {ps : List ProductRelationship},
      validateItems items = some ps →
      items.length = ps.length ∧
      (∀ p ∈ ps, 0 ≤ p.score ∧ p.score ≤ 1) ∧
      (∀ j ∈ items, ∃ q, validateItem j = some q) := by
  intro items
  induction items with
  | nil =>
    intro ps h
    simp only [validateItems, List.mapM_nil, Option.pure_def,
      Option.some_inj] at h
    subst h
    simp
  | cons j js ih =>
    intro ps h
    simp only [validateItems, List.mapM_cons, Option.pure_def,
      Option.bind_eq_bind, Option.bind_eq_some, Option.some_inj] at h
    obtain ⟨p, hp, qs, hqs, hcons⟩ := h
    subst hcons
    obtain ⟨hlen, hrange, hall⟩ := ih hqs
    refine ⟨by simp [hlen], ?_, ?_⟩
    · intro p' hp'
      rcases List.mem_cons.mp hp' with rfl | hmem
      · exact validateItem_some hp
      · exact hrange p' hmem
    · intro j' hj'
      rcases List.mem_cons.mp hj' with rfl | hmem
      · exact ⟨p, hp⟩
      · exact hall j' hmem

/-! ## Claim theorems -/

/-- C1 (counterexample): the composite query text the orchestrator
submits for the candidate `c0` is built from the candidate's own product
name, not from the original product name passed to the pipeline: a
search oracle that answers only at the original-name text is never hit,
while one answering at the candidate-name text is. -/
theorem candidate_query_text_not_original_name :
    candidateQueryText c0
      = "Comfort Fit Denim Jeans Classic blue jeans with a relaxed fit" ∧
    candidateQueryText c0
      ≠ "Mens Casual Cotton T-Shirt" ++ " " ++ c0.product_description ∧
    groundCandidates searchAtCandidateText [c0]
      = [⟨"cat-17", "Slim Straight Jeans", mkRat 87 100⟩] ∧
    groundCandidates searchAtOriginalText [c0] = [] :=
  ⟨rfl, by decide, rfl, rfl⟩

/-- C1 (amended): for every candidate list and search oracle, the
grounding loop submits, for each candidate, exactly the candidate's own
product name followed by a single space and the candidate's description,
and the output is the concatenation of the per-candidate results. -/
theorem groundCandidates_queries_candidate_name_desc :
    ∀ (search : String → Option (List SearchHit))
      (cs : List ProductRelationship),
      groundCandidates search cs
        = (cs.map (fun item =>
            match search
                (item.product_name ++ " " ++ item.product_description) with
            | none => []
            | some hits => hits.map hitToRec)).flatten := by
  intro search cs
  rw [groundCandidates_eq]
  rfl

/-- C2 (counterexample): when the Candidate Generator's model call
raises, `get_complementary` returns the default empty dict and the whole
pipeline returns an empty list as a successful value — the failure is
masked, not propagated. -/
theorem generator_failure_masked_as_empty :
    get_complementary true LlmReply.raiseErr = ⟨[]⟩ ∧
    recommend_main true true encodeOk storeEmptyDocs LlmReply.raiseErr
      = [] :=
  ⟨rfl, rfl⟩

/-- C2 (amended): whenever the Candidate Generator's chain fails (the
model call raises or the response fails parsing), `get_complementary`
catches the error and returns the empty recommendation dict, and the
whole pipeline returns an empty list with no failure surfaced. -/
theorem generator_failure_yields_empty_output
    (conn avail : Bool) (encode : String → EncodeResult)
    (store : SearchPipeline → StoreReply) (reply : LlmReply)
    (h : chainInvoke reply = none) :
    get_complementary true reply = ⟨[]⟩ ∧
    recommend_main conn avail encode store reply = [] := by
  have hg : get_complementary true reply = ⟨[]⟩ := by
    simp [get_complementary, h]
  refine ⟨hg, ?_⟩
  unfold recommend_main
  rw [hg]
  rfl

/-- Witness for C2's amended theorem at the concrete raising reply. -/
theorem generator_failure_yields_empty_output_witness :
    get_complementary true LlmReply.raiseErr = ⟨[]⟩ ∧
    recommend_main false false encodeOk storeEmptyDocs LlmReply.raiseErr
      = [] :=
  generator_failure_yields_empty_output false false encodeOk storeEmptyDocs
    LlmReply.raiseErr rfl

/-- C3: the final recommendation sequence is the concatenation, in the
generator's rank order, of the per-candidate grounded blocks (a failed
or empty search contributes nothing and aborts nothing); concretely,
with exactly one of five candidate searches failing the result has four
entries, and with every search returning no match the result is empty. -/
theorem groundCandidates_order_preservation :
    ∀ (cs : List ProductRelationship)
      (search : String → Option (List SearchHit)),
      groundCandidates search cs = (cs.map (groundOne search)).flatten ∧
      (groundCandidates exampleSearchOneFails exampleCandidates).length
        = 4 ∧
      groundCandidates exampleSearchAllEmpty exampleCandidates = [] := by
  intro cs search
  exact ⟨groundCandidates_eq search cs, by rfl, by rfl⟩

/-- C4: a successful `get_embedding` call returns a vector of exactly
`VECTOR_DIMENSION = 384` elements, and that vector is exactly what the
shape dispatch extracted from the model output — never truncated or
padded; any other length or rank yields `none`. -/
theorem get_embedding_dimension_invariant
    (text : Option String) (avail : Bool) (encode : String → EncodeResult)
    (v : List ℚ) (h : get_embedding text avail encode = some v) :
    v.length = VECTOR_DIMENSION ∧
      ∃ t, text = some t ∧ extractEmbedding (encode t) = some v :=
  get_embedding_some_spec h

/-- Witness for C4 at a concrete successful call. -/
theorem get_embedding_dimension_invariant_witness :
    get_embedding (some "blue shirt") true encodeOk = some vecOk ∧
    vecOk.length = VECTOR_DIMENSION :=
  ⟨rfl,
    (get_embedding_dimension_invariant (some "blue shirt") true encodeOk
      vecOk rfl).1⟩

/-- C5 (counterexample): a call with `top_k = 0` is NOT rejected before
the network call: the pre-checks pass and the outcome is determined by
the store's reply to the issued query (here the store raises on the
non-positive `limit` it received), so the remote query does reach the
store. -/
theorem topk_zero_reaches_store :
    reachesStore
      (find_similar_products_mongodb true true encodeOk
        storeLimitZeroRaises "blue shirt" 0) = true ∧
    find_similar_products_mongodb true true encodeOk storeLimitZeroRaises
      "blue shirt" 0 = SearchOutcome.queryError :=
  ⟨rfl, rfl⟩

/-- C5 (amended): `top_k` is never validated: for every `top_k ≤ 0`,
once the connection string is present and the embedding succeeds, the
query is issued to the store with `limit = top_k` and candidate pool
`max(top_k * 10, 50) = 50`, and the outcome is whatever the store
replies. -/
theorem find_similar_no_topk_validation
    (avail : Bool) (encode : String → EncodeResult)
    (store : SearchPipeline → StoreReply) (text : String)
    (top_k : Int) (qe : List ℚ)
    (htk : top_k ≤ 0)
    (hq : get_embedding (some text) avail encode = some qe) :
    find_similar_products_mongodb true avail encode store text top_k
      = replyToOutcome (store ⟨qe, 50, top_k⟩) := by
  have hlen := (get_embedding_some_spec hq).1
  have h50 : max (top_k * 10) 50 = (50 : Int) := by
    rw [max_eq_right]
    omega
  simp [find_similar_products_mongodb, hq, hlen, h50]

/-- Witness for C5's amended theorem at `top_k = 0`. -/
theorem find_similar_no_topk_validation_witness :
    find_similar_products_mongodb true true encodeOk storeLimitZeroRaises
      "blue shirt" 0
      = replyToOutcome (storeLimitZeroRaises ⟨vecOk, 50, 0⟩) :=
  find_similar_no_topk_validation true encodeOk storeLimitZeroRaises
    "blue shirt" 0 vecOk (by decide) rfl

/-- C6 (counterexample): a raw response whose item array has SIX
schema-conformant entries is accepted by the Candidate Generator — the
claimed at-most-5 bound is not enforced by the schema. -/
theorem six_item_response_accepted :
    (get_complementary true
        (LlmReply.output sixItemResponse)).complementary_products.length
      = 6 := by
  have hv : validateResponse sixItemResponse = some ⟨sixProducts⟩ := by rfl
  simp [get_complementary, chainInvoke, hv, sortByScoreDesc]
  rfl

/-- C6 (amended): the Candidate Generator accepts a raw response exactly
when it is a list (of ANY length — the at-most-5 bound lives only in the
prompt text) of objects with `product_name: string`,
`product_description: string` and `score: float in [0,1]`; validation
is all-or-nothing: on success every raw item validated and none was
dropped, every accepted score lies in `[0, 1]`, and the response is
returned (score-sorted) by `get_complementary`. -/
theorem validate_schema_characterization
    (items : List JsonVal) (ps : List ProductRelationship)
    (h : validateItems items = some ps) :
    items.length = ps.length ∧
    (∀ p ∈ ps, 0 ≤ p.score ∧ p.score ≤ 1) ∧
    (∀ j ∈ items, ∃ q, validateItem j = some q) ∧
    get_complementary true
        (LlmReply.output (.jobj [("complementary_products", .jarr items)]))
      = ⟨sortByScoreDesc ps⟩ := by
  obtain ⟨h1, h2, h3⟩ := validateItems_some h
  refine ⟨h1, h2, h3, ?_⟩
  simp [get_complementary, chainInvoke, validateResponse, List.lookup, h]

/-- Witness for C6's amended theorem at a concrete one-item response. -/
theorem validate_schema_characterization_witness :
    validateItems [mkItemJson "A" "a" (mkRat 1 2)] = some [⟨"A", "a", mkRat 1 2⟩] ∧
    ([mkItemJson "A" "a" (mkRat 1 2)] : List JsonVal).length
      = [(⟨"A", "a", mkRat 1 2⟩ : ProductRelationship)].length :=
  ⟨rfl,
    (validate_schema_characterization [mkItemJson "A" "a" (mkRat 1 2)]
      [⟨"A", "a", mkRat 1 2⟩] rfl).1⟩

/-- C7: the post-processing sort of the Candidate Generator leaves an
already-descending-sorted list unchanged (and conversely only sorted
lists are fixed points), is idempotent, and always returns a
descending-sorted permutation of its input — so a reverse-sorted input
comes back correctly sorted. -/
theorem sortByScoreDesc_idempotent_and_sorted :
    ∀ l : List ProductRelationship,
      (sortByScoreDesc l = l ↔
        l.Pairwise (fun a b => b.score ≤ a.score)) ∧
      sortByScoreDesc (sortByScoreDesc l) = sortByScoreDesc l ∧
      (sortByScoreDesc l).Pairwise (fun a b => b.score ≤ a.score) ∧
      List.Perm (sortByScoreDesc l) l := by
  have htrans : ∀ a b c : ProductRelationship,
      decide (b.score ≤ a.score) = true →
      decide (c.score ≤ b.score) = true →
      decide (c.score ≤ a.score) = true := by
    intro a b c hab hbc
    simp only [decide_eq_true_eq] at *
    exact le_trans hbc hab
  have htotal : ∀ a b : ProductRelationship,
      (decide (b.score ≤ a.score) || decide (a.score ≤ b.score)) = true := by
    intro a b
    simp only [Bool.or_eq_true, decide_eq_true_eq]
    exact (le_total b.score a.score)
  have hsorted : ∀ m : List ProductRelationship,
      (sortByScoreDesc m).Pairwise (fun a b => b.score ≤ a.score) := by
    intro m
    exact (List.sorted_mergeSort htrans htotal m).imp
      (fun hab => of_decide_eq_true hab)
  intro l
  have hperm :=
    List.mergeSort_perm l (fun a b => decide (b.score ≤ a.score))
  refine ⟨⟨?_, ?_⟩, ?_, hsorted l, hperm⟩
  · intro hEq
    exact hEq ▸ hsorted l
  · intro hPair
    exact List.mergeSort_of_sorted
      (hPair.imp (fun hab => decide_eq_true hab))
  · exact List.mergeSort_of_sorted
      ((hsorted l).imp (fun hab => decide_eq_true hab))

/-- C8: for `top_k ≥ 1`, once the pre-checks pass, the vector search
queries the store with candidate pool exactly `max(top_k * 10, 50)` and
`limit = top_k`, and returns the store's reply verbatim (the document
list untouched, a store failure mapped to the corresponding failure
return). -/
theorem find_similar_pool_and_passthrough
    (avail : Bool) (encode : String → EncodeResult)
    (store : SearchPipeline → StoreReply) (text : String)
    (top_k : Int) (qe : List ℚ)
    (_htk : 1 ≤ top_k)
    (hq : get_embedding (some text) avail encode = some qe) :
    find_similar_products_mongodb true avail encode store text top_k
      = replyToOutcome (store ⟨qe, max (top_k * 10) 50, top_k⟩) := by
  have hlen := (get_embedding_some_spec hq).1
  simp [find_similar_products_mongodb, hq, hlen]

/-- Witness for C8 at `top_k = 5`. -/
theorem find_similar_pool_and_passthrough_witness :
    find_similar_products_mongodb true true encodeOk storeEmptyDocs
      "blue shirt" 5
      = replyToOutcome (storeEmptyDocs ⟨vecOk, max (5 * 10) 50, 5⟩) :=
  find_similar_pool_and_passthrough true encodeOk storeEmptyDocs
    "blue shirt" 5 vecOk (by decide) rfl

/-- C9: the post-embedding dimension check of the vector search is an
unreachable branch: no combination of configuration, model oracle, store
oracle, query text and `top_k` makes the function take its
dimension-mismatch return, because a successful `get_embedding` always
has length `VECTOR_DIMENSION`. -/
theorem dimension_check_unreachable :
    ∀ (conn avail : Bool) (encode : String → EncodeResult)
      (store : SearchPipeline → StoreReply) (text : String) (top_k : Int),
      isDimMismatch
        (find_similar_products_mongodb conn avail encode store text top_k)
        = false := by
  intro conn avail encode store text top_k
  have hrep : ∀ r, isDimMismatch (replyToOutcome r) = false := by
    intro r
    cases r <;> rfl
  cases conn with
  | false => rfl
  | true =>
    cases hq : get_embedding (some text) avail encode with
    | none => simp [find_similar_products_mongodb, hq, isDimMismatch]
    | some qe =>
      have hlen := (get_embedding_some_spec hq).1
      simp [find_similar_products_mongodb, hq, hlen, hrep]

/-- C10: `get_embedding` is total at its interface: for every input —
null or empty text, an unavailable model, a raising model call, any
model output shape — it returns either `none` or a vector of exactly 384
elements; exceptions are absorbed (the raising call is the `raised`
oracle case), never propagated. -/
theorem get_embedding_total_none_or_384 :
    ∀ (text : Option String) (avail : Bool)
      (encode : String → EncodeResult),
      get_embedding text avail encode = none ∨
        ∃ v, get_embedding text avail encode = some v ∧
          v.length = VECTOR_DIMENSION := by
  intro text avail encode
  cases hq : get_embedding text avail encode with
  | none => exact Or.inl rfl
  | some v => exact Or.inr ⟨v, rfl, (get_embedding_some_spec hq).1⟩

end CompRec
